import Mathlib

/-!
Shallow embedding of the departure-schedule resolution logic of
`src/services/bookingService.js` (`formatTourData`, lines 427-553).

The resolver consumes the raw ACF field `acf.departure_schedule` (absent, a
JSON-encoded string, or an already-decoded structure) and derives the
availability, seat, pricing, supplement, addon and traveler-limit fields of
the returned tour record.  JavaScript values reachable from decoded JSON are
modelled by the `Json` inductive below; JavaScript numbers are restricted to
integers (every numeric schedule field in the code and its examples is
integral).  `JSON.parse` is modelled as an abstract parameter
`parse : String → Option Json`, `none` standing for the exception that line
444 catches.  A thrown `TypeError` (property access on `null`, possible only
for a `null` entry of the `departures` array) is modelled by `Except.error`.
-/

inductive Json where
  | null : Json
  | bool : Bool → Json
  | num : Int → Json
  | str : String → Json
  | arr : List Json → Json
  | obj : List (String × Json) → Json

/-- Association-list lookup, modelling JavaScript property access on a plain
object whose keys are unique (as produced by `JSON.parse` or object literals). -/
def assocGet (fs : List (String × Json)) (k : String) : Option Json :=
  match fs with
  | [] => none
  | (k2, v) :: rest => if k2 = k then some v else assocGet rest k

/-- JavaScript truthiness of a value (`NaN` never reaches a truthiness test in
the modelled code). -/
def Json.truthy : Json → Bool
  | Json.null => false
  | Json.bool b => b
  | Json.num n => decide (n ≠ 0)
  | Json.str s => decide (s ≠ "")
  | Json.arr _ => true
  | Json.obj _ => true

/-- Is `typeof v === "object"` true for the value? (`typeof null` is
`"object"` in JavaScript, and arrays are objects.) -/
def Json.typeofObject : Json → Bool
  | Json.null => true
  | Json.arr _ => true
  | Json.obj _ => true
  | _ => false

/-- Property read on a non-null value: own fields of plain objects; every
other read used by the modelled code (named fields of numbers, booleans,
strings, arrays) yields `undefined` (`none`).  Numeric indexing and `length`,
which the code also uses, are modelled separately by `jsIndex0`/`jsLength`. -/
def Json.getField : Json → String → Option Json
  | Json.obj fs, k => assocGet fs k
  | _, _ => none

/-- Strict property access `v.k` as used inside the `filter`/`map`/`reduce`/
`find` callbacks: throws (`error`) on `null`, otherwise reads the field. -/
def jsGetE (j : Json) (k : String) : Except Unit (Option Json) :=
  match j with
  | Json.null => Except.error ()
  | j2 => Except.ok (j2.getField k)

/-- Optional-chained access `v?.k` on a possibly-`undefined` (`none`),
possibly-`null` value: yields `undefined` instead of throwing. -/
def jsGetQ : Json → String → Option Json
  | Json.null, _ => none
  | j, k => j.getField k

/-- `o?.k` where `o` itself is the result of an earlier optional chain. -/
def jsGetOpt : Option Json → String → Option Json
  | none, _ => none
  | some j, k => jsGetQ j k

/-- `o?.[0]`: element 0 of an array, property `"0"` of an object, first
character of a string, `undefined` otherwise. -/
def jsIndex0 : Option Json → Option Json
  | none => none
  | some Json.null => none
  | some (Json.arr xs) => xs.head?
  | some (Json.obj fs) => assocGet fs "0"
  | some (Json.str s) => if s.isEmpty then none else some (Json.str (s.take 1))
  | some _ => none

/-- `v || d` for a possibly-`undefined` value `v`. -/
def jsOrDefault (o : Option Json) (dflt : Json) : Json :=
  match o with
  | some v => if v.truthy then v else dflt
  | none => dflt

/-- `v || 0`. -/
def jsOrZero (o : Option Json) : Json := jsOrDefault o (Json.num 0)

/-- Characters JavaScript treats as whitespace in `parseInt`/`Number`. -/
def jsWs (c : Char) : Bool :=
  c = ' ' || c = '\t' || c = '\n' || c = '\r' || c = '\x0b' || c = '\x0c'

/-- Comma-join of already-converted element strings, as in
`Array.prototype.join` with the default separator. -/
def joinStrs : List String → String
  | [] => ""
  | [s] => s
  | s :: t :: r => s ++ "," ++ joinStrs (t :: r)

/-- Fuel bound for the structural recursion of `elemStrF`: it only needs to
exceed the nesting depth of the value being converted, and `2 ^ 64` exceeds
the depth of any value a machine can materialise, so the exhaustion branch is
unreachable on actual inputs. -/
def jsonFuel : Nat := 2 ^ 64

/-- String conversion `String(v)` with an explicit fuel so the recursion
through nested arrays is structural.  `null` and `undefined` elements of an
array join as the empty string; a plain object renders as
`"[object Object]"`. -/
def elemStrF : Nat → Json → String
  | 0, _ => ""
  | f + 1, j =>
    match j with
    | Json.null => "null"
    | Json.bool b => if b then "true" else "false"
    | Json.num n => toString n
    | Json.str s => s
    | Json.obj _ => "[object Object]"
    | Json.arr xs =>
      joinStrs (xs.map (fun x =>
        match x with
        | Json.null => ""
        | x2 => elemStrF f x2))

/-- String conversion `String(v)` of a JavaScript value. -/
def Json.toStringJs (j : Json) : String := elemStrF jsonFuel j

/-- `ToPrimitive` with the default hint, as invoked by `+` and `>`ted
comparisons: arrays and plain objects convert through `toString` (their
default `valueOf` returns a non-primitive); primitives are returned as-is. -/
def Json.toPrimitive : Json → Json
  | Json.arr xs => Json.str (Json.toStringJs (Json.arr xs))
  | Json.obj fs => Json.str (Json.toStringJs (Json.obj fs))
  | j => j

/-- `ToNumber` of a string (`none` is `NaN`).  Decimal and `0x` hexadecimal
integer literals are recognised; in this integer-restricted model a
fractional or exponent literal is out of scope and maps to `NaN`. -/
def strToNumber (s : String) : Option Int :=
  let cs := (s.data.dropWhile jsWs).reverse.dropWhile jsWs |>.reverse
  match cs with
  | [] => some 0
  | _ =>
    let (sgn, cs1) : Int × List Char :=
      match cs with
      | '-' :: r => (-1, r)
      | '+' :: r => (1, r)
      | _ => (1, cs)
    match cs1 with
    | '0' :: 'x' :: r =>
      if r ≠ [] ∧ r.all (fun c => c.isDigit || ('a' ≤ c && c ≤ 'f') || ('A' ≤ c && c ≤ 'F')) then
        some (sgn * (r.foldl (fun a c =>
          a * 16 + (if c.isDigit then c.toNat - 48
                    else if 'a' ≤ c && c ≤ 'f' then c.toNat - 87
                    else c.toNat - 55)) (0 : Nat) : Nat))
      else none
    | _ =>
      if cs1 ≠ [] ∧ cs1.all Char.isDigit then
        some (sgn * (cs1.foldl (fun a c => a * 10 + (c.toNat - 48)) (0 : Nat) : Nat))
      else none

/-- `ToNumber` of a primitive value (`none` is `NaN`; the `arr`/`obj` rows are
unreachable because callers apply `toPrimitive` first). -/
def toNumberPrim : Json → Option Int
  | Json.null => some 0
  | Json.bool b => some (if b then 1 else 0)
  | Json.num n => some n
  | Json.str s => strToNumber s
  | Json.arr _ => some 0
  | Json.obj _ => some 0

/-- The JavaScript `+` operator on two values: after `ToPrimitive`, string
concatenation if either side is a string, numeric addition otherwise.  In the
numeric branch both primitives are `null`, booleans or numbers, whose
`ToNumber` is never `NaN`, so the `Json.null` fallback row is unreachable. -/
def jsAdd (a b : Json) : Json :=
  match a.toPrimitive, b.toPrimitive with
  | Json.str sa, pb => Json.str (sa ++ pb.toStringJs)
  | pa, Json.str sb => Json.str (pa.toStringJs ++ sb)
  | pa, pb =>
    match toNumberPrim pa, toNumberPrim pb with
    | some x, some y => Json.num (x + y)
    | _, _ => Json.null

/-- The `length` property, for the values it is read on: arrays and strings
have their length; a plain object has it only as an own field. -/
def jsLength : Json → Option Json
  | Json.arr xs => some (Json.num (xs.length : Int))
  | Json.str s => some (Json.num (s.length : Int))
  | Json.obj fs => assocGet fs "length"
  | _ => none

/-- `w > 0` for a possibly-`undefined` operand (`undefined > 0` is `false`). -/
def jsGtZero : Option Json → Bool
  | some w =>
    match toNumberPrim w.toPrimitive with
    | some n => decide (0 < n)
    | none => false
  | none => false

/-- `v.length > 0` (line 469). -/
def jsLenPos (v : Json) : Bool := jsGtZero (jsLength v)

/-- `v.length === 0` (line 498): strict equality, so only a numeric length
equal to zero passes. -/
def jsLenEqZero (v : Json) : Bool :=
  match jsLength v with
  | some (Json.num n) => decide (n = 0)
  | _ => false

/-- `parseInt` on a string: skip whitespace, optional sign, optional `0x`
radix prefix, then the longest digit prefix; no digits means `NaN` (`none`). -/
def parseIntStr (s : String) : Option Int :=
  let cs0 := s.data.dropWhile jsWs
  let (sgn, cs1) : Int × List Char :=
    match cs0 with
    | '-' :: r => (-1, r)
    | '+' :: r => (1, r)
    | _ => (1, cs0)
  let (radix, cs2) : Nat × List Char :=
    match cs1 with
    | '0' :: 'x' :: r => (16, r)
    | '0' :: 'X' :: r => (16, r)
    | _ => (10, cs1)
  let isDig : Char → Bool :=
    if radix = 16 then fun c => c.isDigit || ('a' ≤ c && c ≤ 'f') || ('A' ≤ c && c ≤ 'F')
    else Char.isDigit
  let digVal : Char → Nat := fun c =>
    if c.isDigit then c.toNat - 48
    else if 'a' ≤ c && c ≤ 'f' then c.toNat - 87
    else c.toNat - 55
  let ds := cs2.takeWhile isDig
  if ds.isEmpty then none
  else some (sgn * (ds.foldl (fun a c => a * radix + digVal c) (0 : Nat) : Nat))

/-- `parseInt(v)` on an arbitrary value: the argument is converted to a
string first. -/
def parseIntJs (j : Json) : Option Int := parseIntStr j.toStringJs

/-- The predicate of lines 456, 463 and 467: `d.status !== 'sold_out'`.
Strict inequality, so only the literal string `"sold_out"` excludes a
departure; any other value, including `undefined`, keeps it. -/
def statusAvailable : Option Json → Bool
  | some (Json.str s) => decide (s ≠ "sold_out")
  | _ => true

/-- `departures.filter(d => d.status !== 'sold_out')` (lines 455-456 and
462-463): the predicate is evaluated on each element in order and throws on a
`null` element. -/
def departuresFilter : List Json → Except Unit (List Json)
  | [] => Except.ok []
  | d :: ds =>
    match jsGetE d "status" with
    | Except.error e => Except.error e
    | Except.ok st =>
      match departuresFilter ds with
      | Except.error e => Except.error e
      | Except.ok rest => Except.ok (if statusAvailable st then d :: rest else rest)

/-- `.map(d => d.date)` (line 457) on the filtered departures. -/
def departureDates : List Json → Except Unit (List (Option Json))
  | [] => Except.ok []
  | d :: ds =>
    match jsGetE d "date" with
    | Except.error e => Except.error e
    | Except.ok dt =>
      match departureDates ds with
      | Except.error e => Except.error e
      | Except.ok rest => Except.ok (dt :: rest)

/-- `.reduce((sum, d) => sum + (d.availableSeats || 0), 0)` (line 464) on the
filtered departures, with the accumulator threaded explicitly. -/
def seatsSum : List Json → Json → Except Unit Json
  | [], acc => Except.ok acc
  | d :: ds, acc =>
    match jsGetE d "availableSeats" with
    | Except.error e => Except.error e
    | Except.ok s => seatsSum ds (jsAdd acc (jsOrZero s))

/-- `departures.find(d => d.status !== 'sold_out')` (line 467). -/
def findAvailable : List Json → Except Unit (Option Json)
  | [] => Except.ok none
  | d :: ds =>
    match jsGetE d "status" with
    | Except.error e => Except.error e
    | Except.ok st => if statusAvailable st then Except.ok (some d) else findAvailable ds

/-- The guard of line 453: `departureSchedule && departureSchedule.departures
&& Array.isArray(departureSchedule.departures)`.  Only a truthy schedule with
a `departures` field holding an array (arrays are truthy) passes. -/
def scheduleDeps (ds : Json) : Option (List Json) :=
  if ds.truthy then
    match ds.getField "departures" with
    | some (Json.arr l) => some l
    | _ => none
  else none

/-- Lines 454-474: dates, seat total, pricing tiers and price-per-person
derived from a `departures` array that passed the line-453 guard.  Returns
`(availableDates, seatsAvailable, pricingTiersFromSchedule, pricePerPerson)`. -/
def availCore (l : List Json) : Except Unit (List (Option Json) × Json × Json × Json) :=
  match departuresFilter l with
  | Except.error e => Except.error e
  | Except.ok f1 =>
    match departureDates f1 with
    | Except.error e => Except.error e
    | Except.ok dates =>
      match departuresFilter l with
      | Except.error e => Except.error e
      | Except.ok f2 =>
        match seatsSum f2 (Json.num 0) with
        | Except.error e => Except.error e
        | Except.ok seats =>
          match findAvailable l with
          | Except.error e => Except.error e
          | Except.ok firstDeparture =>
            match firstDeparture with
            | none => Except.ok (dates, seats, Json.arr [], Json.num 0)
            | some d =>
              match jsGetE d "pricingTiers" with
              | Except.error e => Except.error e
              | Except.ok pt =>
                let pricingTiersFromSchedule :=
                  match pt with
                  | some v => if v.truthy && jsLenPos v then v else Json.arr []
                  | none => Json.arr []
                match jsGetE d "pricePerPerson" with
                | Except.error e => Except.error e
                | Except.ok pp =>
                  Except.ok (dates, seats, pricingTiersFromSchedule, jsOrZero pp)

/-- The schedule-derived fields of the record returned by `formatTourData`
(lines 510-563), restricted to those the departure schedule determines.
`metaLocation`/`metaDuration` are the raw values
`departureSchedule?.metadata?.location` / `?.duration` that lines 524/526
prefer before falling back to non-schedule sources.  `minTravelers` and
`maxTravelers` use `none` for `NaN`. -/
structure TourAvailability where
  availableDates : List (Option Json)
  seatsAvailable : Json
  pricePerPerson : Json
  pricingTiers : Json
  childWithBed : Json
  childWithoutBed : Json
  extraAdultSameRoom : Json
  singleRoomSupplement : Json
  departureDate : Json
  departureSchedule : Json
  minTravelers : Option Int
  maxTravelers : Option Int
  addons : Json
  metaLocation : Option Json
  metaDuration : Option Json

/-- Assembly of the schedule-derived fields from the departure-schedule value
`ds` and the quadruple computed by `availCore` (or the defaults when the
line-453 guard failed).  Mirrors lines 480-484 (the reset of `availableDates`
and `seatsAvailable` when the schedule is falsy or no dates survived),
496-501 (the `pricingTiers.length === 0` re-default), 529-543 and 553. -/
def mkAvailability (ds : Json) (q : List (Option Json) × Json × Json × Json) :
    TourAvailability :=
  { availableDates := if !ds.truthy || q.1.isEmpty then [] else q.1
    seatsAvailable := if !ds.truthy || q.1.isEmpty then Json.num 0 else q.2.1
    pricePerPerson := q.2.2.2
    pricingTiers := if jsLenEqZero q.2.2.1 then Json.arr [] else q.2.2.1
    childWithBed :=
      jsOrZero (jsGetOpt (jsIndex0 (jsGetQ ds "departures")) "childWithBed")
    childWithoutBed :=
      jsOrZero (jsGetOpt (jsIndex0 (jsGetQ ds "departures")) "childWithoutBed")
    extraAdultSameRoom :=
      jsOrZero (jsGetOpt (jsIndex0 (jsGetQ ds "departures")) "extraAdultSameRoom")
    singleRoomSupplement :=
      jsOrZero (jsGetOpt (jsIndex0 (jsGetQ ds "departures")) "singleRoomSupplement")
    departureDate :=
      match (if !ds.truthy || q.1.isEmpty then ([] : List (Option Json)) else q.1).head? with
      | some (some v) => if v.truthy then v else Json.str ""
      | _ => Json.str ""
    departureSchedule := ds
    minTravelers :=
      parseIntJs (jsOrDefault (jsGetOpt (jsGetQ ds "metadata") "minTravelers") (Json.num 1))
    maxTravelers :=
      parseIntJs (jsOrDefault (jsGetOpt (jsGetQ ds "metadata") "maxTravelers") (Json.num 30))
    addons := jsOrDefault (jsGetOpt (jsIndex0 (jsGetQ ds "departures")) "addons") (Json.arr [])
    metaLocation := jsGetOpt (jsGetQ ds "metadata") "location"
    metaDuration := jsGetOpt (jsGetQ ds "metadata") "duration" }

/-- Lines 453-484 combined: the quadruple of availability data, or the
defaults when the guard fails. -/
def resolveQuad (ds : Json) : Except Unit (List (Option Json) × Json × Json × Json) :=
  match scheduleDeps ds with
  | some l => availCore l
  | none => Except.ok ([], Json.num 0, Json.arr [], Json.num 0)

/-- Resolution of the availability record from the already-normalised
departure-schedule value (`Json.null` when lines 438-451 left the variable
`departureSchedule` at its initial `null`). -/
def resolveFrom (ds : Json) : Except Unit TourAvailability :=
  match resolveQuad ds with
  | Except.error e => Except.error e
  | Except.ok q => Except.ok (mkAvailability ds q)

/-- Lines 436-451: normalisation of the raw `acf.departure_schedule` field.
A falsy raw value is skipped; a string is `JSON.parse`d with a parse failure
caught and leaving `null`; a `typeof`-object value is used as-is; any other
truthy value (number, boolean) leaves the variable at `null`. -/
def computeDS (parse : String → Option Json) (raw : Option Json) : Json :=
  match raw with
  | none => Json.null
  | some j =>
    if j.truthy then
      match j with
      | Json.str s => (parse s).getD Json.null
      | _ => if j.typeofObject then j else Json.null
    else Json.null

/-- The schedule resolver: `formatTourData`'s treatment of
`acf.departure_schedule`, from the raw field value to the schedule-derived
output fields.  `parse` abstracts `JSON.parse` (`none` = parse exception). -/
def resolveSchedule (parse : String → Option Json) (raw : Option Json) :
    Except Unit TourAvailability :=
  resolveFrom (computeDS parse raw)

/-- The all-defaults availability record: what resolution produces when no
usable departure schedule is present. -/
def defaultAvailability : TourAvailability :=
  { availableDates := []
    seatsAvailable := Json.num 0
    pricePerPerson := Json.num 0
    pricingTiers := Json.arr []
    childWithBed := Json.num 0
    childWithoutBed := Json.num 0
    extraAdultSameRoom := Json.num 0
    singleRoomSupplement := Json.num 0
    departureDate := Json.str ""
    departureSchedule := Json.null
    minTravelers := some 1
    maxTravelers := some 30
    addons := Json.arr []
    metaLocation := none
    metaDuration := none }

/-- A departure counts as available when its `status` is not literally
`"sold_out"` (spec §3/§4 step 4). -/
def availPred (d : Json) : Bool := statusAvailable (d.getField "status")

/-- The `date` field of a departure (possibly `undefined`). -/
def dateOf (d : Json) : Option Json := d.getField "date"

/-- The dates of the non-sold-out departures, in source order (spec step 5). -/
def datesOf (l : List Json) : List (Option Json) := (l.filter availPred).map dateOf

/-- The seat aggregation of spec step 6, written as the fold the code's
`reduce` performs over the filtered departures. -/
def seatsOf (l : List Json) : Json :=
  (l.filter availPred).foldl
    (fun acc d => jsAdd acc (jsOrZero (d.getField "availableSeats"))) (Json.num 0)

/-- The anchor departure: first in source order whose status is not
`"sold_out"` (spec step 7). -/
def anchorOf (l : List Json) : Option Json := l.find? availPred

/-- `pricePerPerson` as the code derives it from the anchor departure. -/
def priceOf (l : List Json) : Json :=
  match anchorOf l with
  | some d => jsOrZero (d.getField "pricePerPerson")
  | none => Json.num 0

/-- `pricingTiersFromSchedule` as the code derives it from the anchor. -/
def tiersOf (l : List Json) : Json :=
  match anchorOf l with
  | some d =>
    match d.getField "pricingTiers" with
    | some v => if v.truthy && jsLenPos v then v else Json.arr []
    | none => Json.arr []
  | none => Json.arr []

/-- A supplement field read from the departure at index 0 (what lines 532-535
actually do), `0` when the departure or the field is absent or falsy. -/
def firstDepSupp (l : List Json) (k : String) : Json :=
  match l.head? with
  | some d => jsOrZero (jsGetQ d k)
  | none => Json.num 0

/-- A supplement field read from the anchor departure (what claim C2
asserts), `0` when there is no anchor or the field is absent or falsy. -/
def anchorSupp (l : List Json) (k : String) : Json :=
  match anchorOf l with
  | some d => jsOrZero (jsGetQ d k)
  | none => Json.num 0

/-- The addon list of the departure at index 0, empty when the departure or
its `addons` field is absent (claim C9's description of lines 552-553). -/
def firstAddons (l : List Json) : List Json :=
  match l.head? with
  | some d =>
    match jsGetQ d "addons" with
    | some (Json.arr xs) => xs
    | _ => []
  | none => []

/-- The anchor departure's numeric `pricePerPerson`, `0` when the anchor or
the field is absent (claim C3's description). -/
def anchorPriceNum (l : List Json) : Int :=
  match anchorOf l with
  | some d =>
    match d.getField "pricePerPerson" with
    | some (Json.num p) => p
    | _ => 0
  | none => 0

/-- The anchor departure's tier list, empty when the anchor or the field is
absent (claim C3's description; an empty anchor list stays empty with no
fallback to later departures). -/
def anchorTiersList (l : List Json) : List Json :=
  match anchorOf l with
  | some d =>
    match d.getField "pricingTiers" with
    | some (Json.arr ts) => ts
    | _ => []
  | none => []

/-- The numeric seat count of a departure, `0` when absent (claim C5). -/
def seatNum (d : Json) : Int :=
  match d.getField "availableSeats" with
  | some (Json.num n) => n
  | _ => 0

/-- The numeric seat total of the non-sold-out departures (claim C5). -/
def seatTotal (l : List Json) : Int := ((l.filter availPred).map seatNum).sum

/-- Shape predicate: the optional field value is absent or a number. -/
def numOrAbsentB : Option Json → Bool
  | none => true
  | some (Json.num _) => true
  | _ => false

/-- Shape predicate: the optional field value is absent or an array. -/
def arrOrAbsentB : Option Json → Bool
  | none => true
  | some (Json.arr _) => true
  | _ => false

/-- Is the value a number or a boolean (truthy representatives are exactly
the raw field values that are neither strings nor `typeof`-objects)? -/
def Json.isNumOrBool : Json → Bool
  | Json.num _ => true
  | Json.bool _ => true
  | _ => false

lemma jsGetE_ok_inv {d : Json} {k : String} {v : Option Json}
    (h : jsGetE d k = Except.ok v) : d ≠ Json.null ∧ v = d.getField k := by
  cases d <;> simp_all [jsGetE]

lemma departuresFilter_inv : ∀ {l f : List Json},
    departuresFilter l = Except.ok f →
    f = l.filter availPred ∧ ∀ d ∈ l, d ≠ Json.null := by
  intro l
  induction l with
  | nil =>
    intro f h
    simp [departuresFilter] at h
    subst h
    simp
  | cons d ds ih =>
    intro f h
    rw [departuresFilter] at h
    cases hst : jsGetE d "status" with
    | error e => rw [hst] at h; cases h
    | ok st =>
      rw [hst] at h
      cases hrest : departuresFilter ds with
      | error e => rw [hrest] at h; cases h
      | ok rest =>
        rw [hrest] at h
        obtain ⟨hdne, hstv⟩ := jsGetE_ok_inv hst
        obtain ⟨hrf, hnn⟩ := ih hrest
        have hf : f = if statusAvailable st then d :: rest else rest := by
          cases h; rfl
        subst hstv hrf
        refine ⟨?_, ?_⟩
        · rw [hf, List.filter_cons]
          rfl
        · intro x hx
          rcases List.mem_cons.mp hx with hx1 | hx2
          · exact hx1 ▸ hdne
          · exact hnn x hx2

lemma departureDates_inv : ∀ {f : List Json} {ds : List (Option Json)},
    departureDates f = Except.ok ds → ds = f.map dateOf := by
  intro f
  induction f with
  | nil => intro ds h; simp [departureDates] at h; simp [h.symm]
  | cons d dd ih =>
    intro ds h
    rw [departureDates] at h
    cases hdt : jsGetE d "date" with
    | error e => rw [hdt] at h; cases h
    | ok dt =>
      rw [hdt] at h
      cases hrest : departureDates dd with
      | error e => rw [hrest] at h; cases h
      | ok rest =>
        rw [hrest] at h
        obtain ⟨_, hdv⟩ := jsGetE_ok_inv hdt
        have : ds = dt :: rest := by cases h; rfl
        subst this hdv
        simp [ih hrest, dateOf]

lemma seatsSum_inv : ∀ {f : List Json} {acc s : Json},
    seatsSum f acc = Except.ok s →
    s = f.foldl (fun a d => jsAdd a (jsOrZero (d.getField "availableSeats"))) acc := by
  intro f
  induction f with
  | nil => intro acc s h; simp [seatsSum] at h; simp [h.symm]
  | cons d ds ih =>
    intro acc s h
    rw [seatsSum] at h
    cases hv : jsGetE d "availableSeats" with
    | error e => rw [hv] at h; cases h
    | ok v =>
      rw [hv] at h
      obtain ⟨_, hvv⟩ := jsGetE_ok_inv hv
      subst hvv
      simpa using ih h

lemma findAvailable_inv : ∀ {l : List Json} {o : Option Json},
    findAvailable l = Except.ok o → o = l.find? availPred := by
  intro l
  induction l with
  | nil => intro o h; simp [findAvailable] at h; simp [h.symm]
  | cons d ds ih =>
    intro o h
    rw [findAvailable] at h
    cases hst : jsGetE d "status" with
    | error e => rw [hst] at h; cases h
    | ok st =>
      simp only [hst] at h
      obtain ⟨_, hstv⟩ := jsGetE_ok_inv hst
      subst hstv
      by_cases hp : availPred d
      · unfold availPred at hp
        rw [if_pos hp] at h
        have : o = some d := by cases h; rfl
        have hp2 : availPred d = true := hp
        simp [this, List.find?_cons_of_pos _ hp2]
      · unfold availPred at hp
        rw [if_neg hp] at h
        have hp2 : ¬ availPred d = true := hp
        simp [ih h, List.find?_cons_of_neg _ hp2]

lemma availCore_inv {l : List Json} {q : List (Option Json) × Json × Json × Json}
    (h : availCore l = Except.ok q) :
    q = (datesOf l, seatsOf l, tiersOf l, priceOf l) := by
  rw [availCore] at h
  cases hf1 : departuresFilter l with
  | error e => simp [hf1] at h
  | ok f1 =>
    simp only [hf1] at h
    cases hdd : departureDates f1 with
    | error e => simp [hdd] at h
    | ok dates =>
      simp only [hdd] at h
      cases hss : seatsSum f1 (Json.num 0) with
      | error e => simp [hss] at h
      | ok seats =>
        simp only [hss] at h
        cases hfa : findAvailable l with
        | error e => simp [hfa] at h
        | ok fd =>
          simp only [hfa] at h
          obtain ⟨hf1v, _⟩ := departuresFilter_inv hf1
          have hdv : dates = datesOf l := by
            rw [departureDates_inv hdd, hf1v, datesOf]
          have hsv : seats = seatsOf l := by
            rw [seatsSum_inv hss, hf1v, seatsOf]
          have hfv : fd = anchorOf l := findAvailable_inv hfa
          cases fd with
          | none =>
            simp only [Except.ok.injEq] at h
            rw [← h, hdv, hsv, tiersOf, priceOf, ← hfv]
          | some d =>
            simp only at h
            cases hpt : jsGetE d "pricingTiers" with
            | error e => simp [hpt] at h
            | ok pt =>
              simp only [hpt] at h
              cases hpp : jsGetE d "pricePerPerson" with
              | error e => simp [hpp] at h
              | ok pp =>
                simp only [hpp, Except.ok.injEq] at h
                obtain ⟨_, hptv⟩ := jsGetE_ok_inv hpt
                obtain ⟨_, hppv⟩ := jsGetE_ok_inv hpp
                rw [← h, hdv, hsv, hptv, hppv, tiersOf, priceOf, ← hfv]

lemma computeDS_obj (parse : String → Option Json) (flds : List (String × Json)) :
    computeDS parse (some (Json.obj flds)) = Json.obj flds := rfl

lemma scheduleDeps_obj {flds : List (String × Json)} {l : List Json}
    (hdeps : assocGet flds "departures" = some (Json.arr l)) :
    scheduleDeps (Json.obj flds) = some l := by
  simp [scheduleDeps, Json.truthy, Json.getField, hdeps]

lemma scheduleDeps_falsy {ds : Json} (h : ds.truthy = false) : scheduleDeps ds = none := by
  simp [scheduleDeps, h]

lemma resolveFrom_ok_inv {ds : Json} {res : TourAvailability}
    (h : resolveFrom ds = Except.ok res) :
    ∃ q, resolveQuad ds = Except.ok q ∧ res = mkAvailability ds q := by
  rw [resolveFrom] at h
  cases hq : resolveQuad ds with
  | error e => simp [hq] at h
  | ok q =>
    simp only [hq, Except.ok.injEq] at h
    exact ⟨q, rfl, h.symm⟩

lemma resolve_obj_inv (parse : String → Option Json) {flds : List (String × Json)}
    {l : List Json} {res : TourAvailability}
    (hdeps : assocGet flds "departures" = some (Json.arr l))
    (hres : resolveSchedule parse (some (Json.obj flds)) = Except.ok res) :
    res = mkAvailability (Json.obj flds) (datesOf l, seatsOf l, tiersOf l, priceOf l) := by
  rw [resolveSchedule, computeDS_obj, resolveFrom, resolveQuad, scheduleDeps_obj hdeps] at hres
  cases hq : availCore l with
  | error e => simp [hq] at hres
  | ok q =>
    simp only [hq, Except.ok.injEq] at hres
    rw [← hres, availCore_inv hq]

lemma dates_nil_defaults {l : List Json} (hnil : datesOf l = []) :
    seatsOf l = Json.num 0 ∧ tiersOf l = Json.arr [] ∧ priceOf l = Json.num 0 := by
  have hfil : l.filter availPred = [] := by
    rw [datesOf] at hnil
    exact List.map_eq_nil_iff.mp hnil
  have hanch : anchorOf l = none := by
    rw [anchorOf, List.find?_eq_none]
    intro x hx
    simpa using List.filter_eq_nil_iff.mp hfil x hx
  refine ⟨?_, ?_, ?_⟩
  · rw [seatsOf, hfil]; rfl
  · rw [tiersOf, hanch]
  · rw [priceOf, hanch]

lemma resolveQuad_nil_defaults {ds : Json} {q : List (Option Json) × Json × Json × Json}
    (hq : resolveQuad ds = Except.ok q) (hnil : q.1 = []) :
    q.2.1 = Json.num 0 ∧ q.2.2.1 = Json.arr [] ∧ q.2.2.2 = Json.num 0 := by
  rw [resolveQuad] at hq
  cases hsd : scheduleDeps ds with
  | none =>
    rw [hsd] at hq
    simp only [Except.ok.injEq] at hq
    rw [← hq]
    exact ⟨rfl, rfl, rfl⟩
  | some l =>
    rw [hsd] at hq
    have hqv := availCore_inv hq
    subst hqv
    obtain ⟨h1, h2, h3⟩ := dates_nil_defaults hnil
    exact ⟨h1, h2, h3⟩

/-- C1: for every raw schedule input on which resolution completes, an empty
resolved `availableDates` forces `seatsAvailable = 0`, `pricePerPerson = 0`
and `pricingTiers = []`.  (The claim's further assertion about the four
supplement fields is refuted by `c1_counterexample`: they are read from
`departures[0]` regardless of status, so a sold-out-only schedule has empty
dates but can have non-zero supplements.) -/
theorem c1_empty_dates_zeroes (parse : String → Option Json) (raw : Option Json)
    (res : TourAvailability)
    (hres : resolveSchedule parse raw = Except.ok res)
    (hempty : res.availableDates = []) :
    res.seatsAvailable = Json.num 0 ∧ res.pricePerPerson = Json.num 0 ∧
      res.pricingTiers = Json.arr [] := by
  rw [resolveSchedule] at hres
  obtain ⟨q, hq, hmk⟩ := resolveFrom_ok_inv hres
  subst hmk
  have hcond : (!(computeDS parse raw).truthy || q.1.isEmpty) = true := by
    by_contra hcf
    have hc2 : (!(computeDS parse raw).truthy || q.1.isEmpty) = false :=
      Bool.eq_false_iff.mpr hcf
    have hdates : (mkAvailability (computeDS parse raw) q).availableDates = q.1 := by
      simp [mkAvailability, hc2]
    rw [hempty] at hdates
    have : q.1.isEmpty = true := by rw [← hdates]; rfl
    simp [this] at hc2
  have hdef : q.2.1 = Json.num 0 ∧ q.2.2.1 = Json.arr [] ∧ q.2.2.2 = Json.num 0 := by
    cases hb : (computeDS parse raw).truthy with
    | false =>
      rw [resolveQuad, scheduleDeps_falsy hb] at hq
      simp only [Except.ok.injEq] at hq
      rw [← hq]
      exact ⟨rfl, rfl, rfl⟩
    | true =>
      have hie : q.1.isEmpty = true := by simpa [hb] using hcond
      exact resolveQuad_nil_defaults hq (List.isEmpty_iff.mp hie)
  refine ⟨?_, hdef.2.2, ?_⟩
  · simp [mkAvailability, hcond]
  · simp [mkAvailability, hdef.2.1, jsLenEqZero, jsLength]

/-- C1 counterexample: a schedule whose only departure is sold out (with
`childWithBed: 50`) resolves with empty `availableDates` yet a non-zero
`childWithBed`, refuting the claim's "supplement fields at their zero
defaults". -/
def c1sched : Json := Json.obj [("departures", Json.arr
  [Json.obj [("date", Json.str "2025-06-01"), ("status", Json.str "sold_out"),
             ("childWithBed", Json.num 50)]])]

/-- C1 is false as stated: the concrete schedule `c1sched` resolves with
empty `availableDates` but `childWithBed = 50 ≠ 0`. -/
theorem c1_counterexample :
    (resolveSchedule (fun _ => none) (some c1sched)).map
        (fun r => (r.availableDates, r.childWithBed)) =
      Except.ok ([], Json.num 50) ∧ Json.num 50 ≠ Json.num 0 :=
  ⟨rfl, by simp⟩

/-- C1 witness: the amended theorem applied at the concrete input `none`
(absent schedule field). -/
theorem c1_witness :
    resolveSchedule (fun _ => none) none = Except.ok defaultAvailability ∧
    defaultAvailability.availableDates = [] ∧
    (defaultAvailability.seatsAvailable = Json.num 0 ∧
      defaultAvailability.pricePerPerson = Json.num 0 ∧
      defaultAvailability.pricingTiers = Json.arr []) :=
  ⟨rfl, rfl, c1_empty_dates_zeroes (fun _ => none) none defaultAvailability rfl rfl⟩

lemma mk_supp_eq {flds : List (String × Json)} {l : List Json}
    (hdeps : assocGet flds "departures" = some (Json.arr l)) (k : String) :
    jsOrZero (jsGetOpt (jsIndex0 (jsGetQ (Json.obj flds) "departures")) k) =
      firstDepSupp l k := by
  have h1 : jsGetQ (Json.obj flds) "departures" = some (Json.arr l) := by
    simp [jsGetQ, Json.getField, hdeps]
  rw [h1]
  cases l with
  | nil => rfl
  | cons d ds => rfl

/-- C2 (amended): the four supplement fields are read from the departure at
index 0 regardless of its status (sold-out included), each defaulting to 0
when the departure or the field is absent or falsy.  They are not read from
the anchor (first non-sold-out) departure, which is what the claim as stated
asserts and what `c2_counterexample` refutes. -/
theorem c2_supplements_from_first (parse : String → Option Json)
    (flds : List (String × Json)) (l : List Json) (res : TourAvailability)
    (hdeps : assocGet flds "departures" = some (Json.arr l))
    (hres : resolveSchedule parse (some (Json.obj flds)) = Except.ok res) :
    res.childWithBed = firstDepSupp l "childWithBed" ∧
    res.childWithoutBed = firstDepSupp l "childWithoutBed" ∧
    res.extraAdultSameRoom = firstDepSupp l "extraAdultSameRoom" ∧
    res.singleRoomSupplement = firstDepSupp l "singleRoomSupplement" := by
  have hmk := resolve_obj_inv parse hdeps hres
  subst hmk
  exact ⟨mk_supp_eq hdeps _, mk_supp_eq hdeps _, mk_supp_eq hdeps _, mk_supp_eq hdeps _⟩

/-- C2 counterexample input: the first departure is sold out with
`childWithBed: 5`; the anchor (first non-sold-out) departure has
`childWithBed: 7`. -/
def c2deps : List Json :=
  [Json.obj [("date", Json.str "2025-07-01"), ("status", Json.str "sold_out"),
             ("childWithBed", Json.num 5)],
   Json.obj [("date", Json.str "2025-07-08"), ("status", Json.str "open"),
             ("childWithBed", Json.num 7)]]

/-- C2 counterexample schedule. -/
def c2sched : Json := Json.obj [("departures", Json.arr c2deps)]

/-- C2 is false as stated: on `c2sched` the resolved `childWithBed` is 5
(from the sold-out departure at index 0), while the anchor departure's
`childWithBed` — the value the claim asserts — is 7. -/
theorem c2_counterexample :
    (resolveSchedule (fun _ => none) (some c2sched)).map (fun r => r.childWithBed) =
      Except.ok (Json.num 5) ∧
    anchorSupp c2deps "childWithBed" = Json.num 7 ∧
    Json.num 5 ≠ Json.num 7 :=
  ⟨rfl, rfl, by simp⟩

/-- C2 witness input: a single open departure with supplements. -/
def c2wdeps : List Json :=
  [Json.obj [("date", Json.str "2025-08-01"), ("status", Json.str "open"),
             ("childWithBed", Json.num 11), ("childWithoutBed", Json.num 12),
             ("extraAdultSameRoom", Json.num 13), ("singleRoomSupplement", Json.num 14)]]

/-- C2 witness schedule fields. -/
def c2wflds : List (String × Json) := [("departures", Json.arr c2wdeps)]

/-- C2 witness result record. -/
def c2wres : TourAvailability :=
  (resolveSchedule (fun _ => none) (some (Json.obj c2wflds))).toOption.getD defaultAvailability

/-- C2 witness: the amended theorem applied at a concrete schedule. -/
theorem c2_witness :
    assocGet c2wflds "departures" = some (Json.arr c2wdeps) ∧
    resolveSchedule (fun _ => none) (some (Json.obj c2wflds)) = Except.ok c2wres ∧
    (c2wres.childWithBed = firstDepSupp c2wdeps "childWithBed" ∧
     c2wres.childWithoutBed = firstDepSupp c2wdeps "childWithoutBed" ∧
     c2wres.extraAdultSameRoom = firstDepSupp c2wdeps "extraAdultSameRoom" ∧
     c2wres.singleRoomSupplement = firstDepSupp c2wdeps "singleRoomSupplement") :=
  ⟨rfl, rfl, c2_supplements_from_first (fun _ => none) c2wflds c2wdeps c2wres rfl rfl⟩

/-- C3: `pricePerPerson` is the anchor departure's numeric price (0 when the
anchor or its price field is absent), and `pricingTiers` is the anchor's tier
list when that list is non-empty and the empty default otherwise, with no
fallback to a later departure's tiers — on any schedule whose departures are
well formed (price fields numeric or absent, tier fields arrays or absent). -/
theorem c3_anchor_price_tiers (parse : String → Option Json)
    (flds : List (String × Json)) (l : List Json) (res : TourAvailability)
    (hdeps : assocGet flds "departures" = some (Json.arr l))
    (hshape : ∀ d ∈ l, numOrAbsentB (d.getField "pricePerPerson") = true ∧
      arrOrAbsentB (d.getField "pricingTiers") = true)
    (hres : resolveSchedule parse (some (Json.obj flds)) = Except.ok res) :
    res.pricePerPerson = Json.num (anchorPriceNum l) ∧
    res.pricingTiers = Json.arr (anchorTiersList l) := by
  have hmk := resolve_obj_inv parse hdeps hres
  subst hmk
  have hpp : (mkAvailability (Json.obj flds)
      (datesOf l, seatsOf l, tiersOf l, priceOf l)).pricePerPerson = priceOf l := rfl
  have hpt : (mkAvailability (Json.obj flds)
      (datesOf l, seatsOf l, tiersOf l, priceOf l)).pricingTiers =
      if jsLenEqZero (tiersOf l) then Json.arr [] else tiersOf l := rfl
  rw [hpp, hpt]
  cases hanch : anchorOf l with
  | none =>
    constructor
    · simp [priceOf, anchorPriceNum, hanch]
    · simp [tiersOf, anchorTiersList, hanch, jsLenEqZero, jsLength]
  | some d =>
    have hd : d ∈ l := List.mem_of_find?_eq_some hanch
    obtain ⟨hp, ht⟩ := hshape d hd
    constructor
    · rw [priceOf, anchorPriceNum, hanch]
      cases hv : d.getField "pricePerPerson" with
      | none => simp [hv, jsOrZero, jsOrDefault]
      | some v =>
        rw [hv] at hp
        cases v <;> simp [numOrAbsentB] at hp
        case num p =>
          by_cases hz : p = 0 <;>
            simp [hv, jsOrZero, jsOrDefault, Json.truthy, hz]
    · rw [tiersOf, anchorTiersList, hanch]
      cases hv : d.getField "pricingTiers" with
      | none => simp [hv, jsLenEqZero, jsLength]
      | some v =>
        rw [hv] at ht
        cases v <;> simp [arrOrAbsentB] at ht
        case arr ts =>
          cases ts with
          | nil =>
            simp [hv, Json.truthy, jsLenPos, jsLength, jsGtZero, Json.toPrimitive,
              toNumberPrim, jsLenEqZero]
          | cons t tr =>
            have hlp : jsLenPos (Json.arr (t :: tr)) = true := by
              simp [jsLenPos, jsLength, jsGtZero, Json.toPrimitive, toNumberPrim]
            have hlz : jsLenEqZero (Json.arr (t :: tr)) = false := by
              simp [jsLenEqZero, jsLength]
              omega
            simp [hv, Json.truthy, hlp, hlz]

/-- C3 witness input: the spec's anchor-selection example (first departure
sold out at price 100, then open ones at 200 and 300). -/
def c3deps : List Json :=
  [Json.obj [("date", Json.str "2025-09-01"), ("status", Json.str "sold_out"),
             ("pricePerPerson", Json.num 100)],
   Json.obj [("date", Json.str "2025-09-08"), ("status", Json.str "open"),
             ("pricePerPerson", Json.num 200)],
   Json.obj [("date", Json.str "2025-09-15"), ("status", Json.str "open"),
             ("pricePerPerson", Json.num 300)]]

/-- C3 witness schedule fields. -/
def c3flds : List (String × Json) := [("departures", Json.arr c3deps)]

/-- C3 witness result record. -/
def c3res : TourAvailability :=
  (resolveSchedule (fun _ => none) (some (Json.obj c3flds))).toOption.getD defaultAvailability

/-- C3 witness: the theorem applied at the spec's example; the resolved price
is the anchor's 200, not the sold-out departure's 100. -/
theorem c3_witness :
    assocGet c3flds "departures" = some (Json.arr c3deps) ∧
    resolveSchedule (fun _ => none) (some (Json.obj c3flds)) = Except.ok c3res ∧
    anchorPriceNum c3deps = 200 ∧
    (c3res.pricePerPerson = Json.num (anchorPriceNum c3deps) ∧
     c3res.pricingTiers = Json.arr (anchorTiersList c3deps)) :=
  ⟨rfl, rfl, rfl,
    c3_anchor_price_tiers (fun _ => none) c3flds c3deps c3res rfl (by decide) rfl⟩

/-- C4 (amended): `availableDates` is exactly the ordered list of `date`
values of the non-sold-out departures, its length is the number of
seat-contributing departures, and a sold-out departure's date value occurs in
it only when some non-sold-out departure carries the same date value.  (The
claim's unconditional "no date of a sold-out departure appears" is refuted by
`c4_counterexample`, where a sold-out and an open departure share a date.) -/
theorem c4_available_dates (parse : String → Option Json)
    (flds : List (String × Json)) (l : List Json) (res : TourAvailability)
    (hdeps : assocGet flds "departures" = some (Json.arr l))
    (hres : resolveSchedule parse (some (Json.obj flds)) = Except.ok res) :
    res.availableDates = (l.filter availPred).map dateOf ∧
    res.availableDates.length = (l.filter availPred).length ∧
    (∀ d ∈ l, availPred d = false → dateOf d ∈ res.availableDates →
      ∃ d2 ∈ l, availPred d2 = true ∧ dateOf d2 = dateOf d) := by
  have hmk := resolve_obj_inv parse hdeps hres
  subst hmk
  have h1 : (mkAvailability (Json.obj flds)
      (datesOf l, seatsOf l, tiersOf l, priceOf l)).availableDates = datesOf l := by
    cases hie : (datesOf l).isEmpty with
    | true => simp [mkAvailability, Json.truthy, hie, List.isEmpty_iff.mp hie]
    | false => simp [mkAvailability, Json.truthy, hie]
  refine ⟨by rw [h1, datesOf], by rw [h1, datesOf, List.length_map], ?_⟩
  intro d hd hnp hmem
  rw [h1, datesOf] at hmem
  obtain ⟨d2, hd2f, heq⟩ := List.mem_map.mp hmem
  obtain ⟨hd2l, hd2p⟩ := List.mem_filter.mp hd2f
  exact ⟨d2, hd2l, hd2p, heq⟩

/-- C4 counterexample departure: sold out on the shared date. -/
def c4dep0 : Json :=
  Json.obj [("status", Json.str "sold_out"), ("date", Json.str "2025-01-01")]

/-- C4 counterexample departures: a sold-out and an open departure sharing
the date `"2025-01-01"`. -/
def c4deps : List Json :=
  [c4dep0, Json.obj [("status", Json.str "open"), ("date", Json.str "2025-01-01")]]

/-- C4 counterexample schedule. -/
def c4sched : Json := Json.obj [("departures", Json.arr c4deps)]

/-- C4 is false as stated: on `c4sched` the date of the sold-out departure
`c4dep0` does appear in the resolved `availableDates` (contributed by the
open departure with the same date). -/
theorem c4_counterexample :
    (resolveSchedule (fun _ => none) (some c4sched)).map (fun r => r.availableDates) =
      Except.ok [some (Json.str "2025-01-01")] ∧
    c4deps.head? = some c4dep0 ∧
    availPred c4dep0 = false ∧
    dateOf c4dep0 = some (Json.str "2025-01-01") :=
  ⟨rfl, rfl, rfl, rfl⟩

/-- C4 witness input: two open and one sold-out departures. -/
def c4wdeps : List Json :=
  [Json.obj [("date", Json.str "2025-02-01"), ("status", Json.str "open")],
   Json.obj [("date", Json.str "2025-02-08"), ("status", Json.str "sold_out")],
   Json.obj [("date", Json.str "2025-02-15"), ("status", Json.str "open")]]

/-- C4 witness schedule fields. -/
def c4wflds : List (String × Json) := [("departures", Json.arr c4wdeps)]

/-- C4 witness result record. -/
def c4wres : TourAvailability :=
  (resolveSchedule (fun _ => none) (some (Json.obj c4wflds))).toOption.getD defaultAvailability

/-- C4 witness: the amended theorem applied at a concrete schedule. -/
theorem c4_witness :
    assocGet c4wflds "departures" = some (Json.arr c4wdeps) ∧
    resolveSchedule (fun _ => none) (some (Json.obj c4wflds)) = Except.ok c4wres ∧
    (c4wres.availableDates = (c4wdeps.filter availPred).map dateOf ∧
     c4wres.availableDates.length = (c4wdeps.filter availPred).length ∧
     (∀ d ∈ c4wdeps, availPred d = false → dateOf d ∈ c4wres.availableDates →
       ∃ d2 ∈ c4wdeps, availPred d2 = true ∧ dateOf d2 = dateOf d)) :=
  ⟨rfl, rfl, c4_available_dates (fun _ => none) c4wflds c4wdeps c4wres rfl rfl⟩

lemma seatsFold_num : ∀ (f : List Json),
    (∀ d ∈ f, numOrAbsentB (d.getField "availableSeats") = true) → ∀ a : Int,
    f.foldl (fun acc d => jsAdd acc (jsOrZero (d.getField "availableSeats")))
        (Json.num a) = Json.num (a + (f.map seatNum).sum) := by
  intro f
  induction f with
  | nil => intro _ a; simp
  | cons d ds ih =>
    intro h a
    have hd := h d (List.mem_cons_self d ds)
    have hstep : jsAdd (Json.num a) (jsOrZero (d.getField "availableSeats")) =
        Json.num (a + seatNum d) := by
      cases hv : d.getField "availableSeats" with
      | none =>
        simp [hv, jsOrZero, jsOrDefault, seatNum, jsAdd, Json.toPrimitive, toNumberPrim]
      | some v =>
        rw [hv] at hd
        cases v <;> simp [numOrAbsentB] at hd
        case num n =>
          by_cases hz : n = 0 <;>
            simp [hv, jsOrZero, jsOrDefault, Json.truthy, hz, seatNum, jsAdd,
              Json.toPrimitive, toNumberPrim]
    rw [List.foldl_cons, hstep, ih (fun x hx => h x (List.mem_cons_of_mem _ hx))]
    simp [seatNum]
    omega

/-- C5 (amended): on a schedule whose departures all carry a numeric or
absent `availableSeats`, `seatsAvailable` is the numeric sum of
`availableSeats` over the non-sold-out departures, an absent (or otherwise
falsy) value contributing 0.  (The claim's stronger "non-numeric contributes
0" is refuted by `c5_counterexample`: the code's `sum + (x || 0)` coerces a
truthy non-number with JavaScript `+`, so `true` contributes 1.) -/
theorem c5_seats_sum (parse : String → Option Json)
    (flds : List (String × Json)) (l : List Json) (res : TourAvailability)
    (hdeps : assocGet flds "departures" = some (Json.arr l))
    (hseats : ∀ d ∈ l, numOrAbsentB (d.getField "availableSeats") = true)
    (hres : resolveSchedule parse (some (Json.obj flds)) = Except.ok res) :
    res.seatsAvailable = Json.num (seatTotal l) := by
  have hmk := resolve_obj_inv parse hdeps hres
  subst hmk
  have hall : ∀ d ∈ l.filter availPred, numOrAbsentB (d.getField "availableSeats") = true :=
    fun d hd => hseats d (List.mem_of_mem_filter hd)
  have hfold : seatsOf l = Json.num (seatTotal l) := by
    rw [seatsOf, seatTotal]
    simpa using seatsFold_num _ hall 0
  cases hie : (datesOf l).isEmpty with
  | true =>
    have hfil : l.filter availPred = [] :=
      List.map_eq_nil_iff.mp (by rw [← datesOf]; exact List.isEmpty_iff.mp hie)
    have : seatTotal l = 0 := by simp [seatTotal, hfil]
    simp [mkAvailability, Json.truthy, hie, this]
  | false =>
    simp [mkAvailability, Json.truthy, hie, hfold]

/-- C5 counterexample input: one open departure whose `availableSeats` is the
boolean `true` (truthy, non-numeric). -/
def c5deps : List Json :=
  [Json.obj [("date", Json.str "2025-03-01"), ("status", Json.str "open"),
             ("availableSeats", Json.bool true)]]

/-- C5 counterexample schedule. -/
def c5sched : Json := Json.obj [("departures", Json.arr c5deps)]

/-- C5 is false as stated: with `availableSeats: true` the resolved
`seatsAvailable` is 1 (JavaScript `0 + true`), not the 0 the claim's
"non-numeric contributes 0" would give. -/
theorem c5_counterexample :
    (resolveSchedule (fun _ => none) (some c5sched)).map (fun r => r.seatsAvailable) =
      Except.ok (Json.num 1) ∧ Json.num 1 ≠ Json.num 0 :=
  ⟨rfl, by simp⟩

/-- C5 witness input: the spec's seat-aggregation example. -/
def c5wdeps : List Json :=
  [Json.obj [("date", Json.str "2025-04-01"), ("status", Json.str "open"),
             ("availableSeats", Json.num 3)],
   Json.obj [("date", Json.str "2025-04-08"), ("status", Json.str "sold_out"),
             ("availableSeats", Json.num 10)],
   Json.obj [("date", Json.str "2025-04-15"), ("status", Json.str "open"),
             ("availableSeats", Json.num 5)]]

/-- C5 witness schedule fields. -/
def c5wflds : List (String × Json) := [("departures", Json.arr c5wdeps)]

/-- C5 witness result record. -/
def c5wres : TourAvailability :=
  (resolveSchedule (fun _ => none) (some (Json.obj c5wflds))).toOption.getD defaultAvailability

/-- C5 witness: the amended theorem applied at the spec's example, whose seat
total is 8. -/
theorem c5_witness :
    assocGet c5wflds "departures" = some (Json.arr c5wdeps) ∧
    resolveSchedule (fun _ => none) (some (Json.obj c5wflds)) = Except.ok c5wres ∧
    seatTotal c5wdeps = 8 ∧
    c5wres.seatsAvailable = Json.num (seatTotal c5wdeps) :=
  ⟨rfl, rfl, rfl,
    c5_seats_sum (fun _ => none) c5wflds c5wdeps c5wres rfl (by decide) rfl⟩

/-- C6: a string-valued raw schedule field that fails to decode (the abstract
parser returns `none`, modelling the caught `JSON.parse` exception of lines
441-447) resolves, without error, to the canonical all-defaults availability
record. -/
theorem c6_parse_failure_default (parse : String → Option Json) (s : String)
    (hfail : parse s = none) :
    resolveSchedule parse (some (Json.str s)) = Except.ok defaultAvailability := by
  rw [resolveSchedule]
  have hds : computeDS parse (some (Json.str s)) = Json.null := by
    by_cases hse : s = ""
    · simp [computeDS, hse, Json.truthy]
    · simp [computeDS, Json.truthy, hse, hfail]
  rw [hds]
  rfl

/-- C6 witness: the theorem applied to the spec's malformed example string
under the parser that rejects every string. -/
theorem c6_witness :
    (fun _ : String => (none : Option Json)) "\x7bnot valid json" = none ∧
    resolveSchedule (fun _ => none) (some (Json.str "\x7bnot valid json")) =
      Except.ok defaultAvailability :=
  ⟨rfl, c6_parse_failure_default (fun _ => none) "\x7bnot valid json" rfl⟩

/-- C7: resolving the JSON text of a structured (`typeof`-object) schedule
value and resolving the value itself produce identical results: once the text
decodes to `v`, both paths continue from the same normalised schedule. -/
theorem c7_textual_structured_equiv (parse : String → Option Json) (s : String)
    (v : Json) (hparse : parse s = some v) (hne : s ≠ "")
    (hobj : v.typeofObject = true) :
    resolveSchedule parse (some (Json.str s)) = resolveSchedule parse (some v) := by
  rw [resolveSchedule, resolveSchedule]
  congr 1
  have h1 : computeDS parse (some (Json.str s)) = v := by
    simp [computeDS, Json.truthy, hne, hparse]
  rw [h1]
  cases v with
  | null => simp [computeDS, Json.truthy]
  | arr xs => simp [computeDS, Json.truthy, Json.typeofObject]
  | obj fs => simp [computeDS, Json.truthy, Json.typeofObject]
  | bool b => simp [Json.typeofObject] at hobj
  | num n => simp [Json.typeofObject] at hobj
  | str s2 => simp [Json.typeofObject] at hobj

/-- C7 witness structured value: the spec's textual-equivalence example. -/
def c7v : Json := Json.obj [("departures", Json.arr
  [Json.obj [("date", Json.str "2025-05-01"), ("status", Json.str "open"),
             ("availableSeats", Json.num 4)]])]

/-- C7 witness JSON text of `c7v`. -/
def c7s : String :=
  "\x7b\"departures\":[\x7b\"date\":\"2025-05-01\",\"status\":\"open\",\"availableSeats\":4\x7d]\x7d"

/-- C7 witness parser: decodes exactly the text `c7s`, to `c7v`. -/
def c7parse : String → Option Json := fun t => if t = c7s then some c7v else none

/-- C7 witness: the theorem applied at the spec's example string and its
decoded structure. -/
theorem c7_witness :
    c7parse c7s = some c7v ∧ c7s ≠ "" ∧ c7v.typeofObject = true ∧
    resolveSchedule c7parse (some (Json.str c7s)) =
      resolveSchedule c7parse (some c7v) :=
  ⟨by simp [c7parse], by decide, rfl,
    c7_textual_structured_equiv c7parse c7s c7v (by simp [c7parse]) (by decide) rfl⟩

lemma toStringJs_str (s : String) : Json.toStringJs (Json.str s) = s := rfl

/-- The optional-chain read `departureSchedule?.metadata?.k` for an object
schedule: `none` (`undefined`) when the metadata mapping is absent, `null`
or not an object, or when the entry itself is absent. -/
def metaEntry (flds : List (String × Json)) (k : String) : Option Json :=
  jsGetOpt (assocGet flds "metadata") k

/-- C8 (amended): `minTravelers`/`maxTravelers` are `parseInt` of the
metadata entry when it is present and truthy (a numeric entry parses back to
itself; a truthy string that does not start with an integer yields `NaN`),
and `parseInt` of the defaults 1 and 30 — that is, 1 and 30 — when the
metadata mapping or the entry is absent or the entry is falsy.  The three
cases (absent, present falsy, present truthy) are exhaustive.  (The claim's
"default on parse failure" is refuted by `c8_counterexample`.) -/
theorem c8_travelers (parse : String → Option Json)
    (flds : List (String × Json)) (res : TourAvailability)
    (hres : resolveSchedule parse (some (Json.obj flds)) = Except.ok res) :
    (metaEntry flds "minTravelers" = none → res.minTravelers = some 1) ∧
    (metaEntry flds "maxTravelers" = none → res.maxTravelers = some 30) ∧
    (∀ v, metaEntry flds "minTravelers" = some v → v.truthy = false →
      res.minTravelers = some 1) ∧
    (∀ v, metaEntry flds "maxTravelers" = some v → v.truthy = false →
      res.maxTravelers = some 30) ∧
    (∀ v, metaEntry flds "minTravelers" = some v → v.truthy = true →
      res.minTravelers = parseIntJs v) ∧
    (∀ v, metaEntry flds "maxTravelers" = some v → v.truthy = true →
      res.maxTravelers = parseIntJs v) := by
  rw [resolveSchedule, computeDS_obj] at hres
  obtain ⟨q, hq, hmk⟩ := resolveFrom_ok_inv hres
  subst hmk
  have hmin : (mkAvailability (Json.obj flds) q).minTravelers =
      parseIntJs (jsOrDefault (metaEntry flds "minTravelers") (Json.num 1)) := rfl
  have hmax : (mkAvailability (Json.obj flds) q).maxTravelers =
      parseIntJs (jsOrDefault (metaEntry flds "maxTravelers") (Json.num 30)) := rfl
  refine ⟨?_, ?_, ?_, ?_, ?_, ?_⟩
  · intro h; rw [hmin, h]; rfl
  · intro h; rw [hmax, h]; rfl
  · intro v h hf
    rw [hmin, h]
    have hd : jsOrDefault (some v) (Json.num 1) = Json.num 1 := by
      simp [jsOrDefault, hf]
    rw [hd]; rfl
  · intro v h hf
    rw [hmax, h]
    have hd : jsOrDefault (some v) (Json.num 30) = Json.num 30 := by
      simp [jsOrDefault, hf]
    rw [hd]; rfl
  · intro v h ht
    rw [hmin, h]
    have hd : jsOrDefault (some v) (Json.num 1) = v := by
      simp [jsOrDefault, ht]
    rw [hd]
  · intro v h ht
    rw [hmax, h]
    have hd : jsOrDefault (some v) (Json.num 30) = v := by
      simp [jsOrDefault, ht]
    rw [hd]

/-- C8 counterexample schedule fields: metadata with the unparseable
`minTravelers: "abc"`. -/
def c8flds : List (String × Json) :=
  [("departures", Json.arr []),
   ("metadata", Json.obj [("minTravelers", Json.str "abc")])]

/-- C8 is false as stated: with `metadata.minTravelers = "abc"` (present,
truthy, unparseable) the resolved `minTravelers` is `NaN` (`none`), not the
claimed default 1. -/
theorem c8_counterexample :
    (resolveSchedule (fun _ => none) (some (Json.obj c8flds))).map
        (fun r => r.minTravelers) = Except.ok none ∧
    (none : Option Int) ≠ some 1 :=
  ⟨rfl, by simp⟩

/-- C8 witness schedule fields: metadata with a truthy numeric
`minTravelers: 5` and a falsy `maxTravelers: 0`. -/
def c8wflds : List (String × Json) :=
  [("departures", Json.arr []),
   ("metadata", Json.obj [("minTravelers", Json.num 5), ("maxTravelers", Json.num 0)])]

/-- C8 witness result record. -/
def c8wres : TourAvailability :=
  (resolveSchedule (fun _ => none) (some (Json.obj c8wflds))).toOption.getD defaultAvailability

/-- C8 witness: the amended theorem applied where `minTravelers` is the
truthy number 5 (parsed to 5) and `maxTravelers` is the falsy number 0
(defaulted to 30). -/
theorem c8_witness :
    resolveSchedule (fun _ => none) (some (Json.obj c8wflds)) = Except.ok c8wres ∧
    metaEntry c8wflds "minTravelers" = some (Json.num 5) ∧
    (Json.num 5).truthy = true ∧
    metaEntry c8wflds "maxTravelers" = some (Json.num 0) ∧
    (Json.num 0).truthy = false ∧
    parseIntJs (Json.num 5) = some 5 ∧
    c8wres.minTravelers = parseIntJs (Json.num 5) ∧
    c8wres.maxTravelers = some 30 :=
  ⟨rfl, rfl, rfl, rfl, rfl, rfl,
    (c8_travelers (fun _ => none) c8wflds c8wres rfl).2.2.2.2.1 (Json.num 5) rfl rfl,
    (c8_travelers (fun _ => none) c8wflds c8wres rfl).2.2.2.1 (Json.num 0) rfl rfl⟩

/-- C9: `addons` is the addon array of the departure at index 0 regardless of
that departure's status (sold-out included), and the empty array when the
departures list is empty or the first departure lacks a (well-formed) addons
field; the anchor departure plays no role. -/
theorem c9_addons_from_first (parse : String → Option Json)
    (flds : List (String × Json)) (l : List Json) (res : TourAvailability)
    (hdeps : assocGet flds "departures" = some (Json.arr l))
    (haddons : arrOrAbsentB (jsGetOpt l.head? "addons") = true)
    (hres : resolveSchedule parse (some (Json.obj flds)) = Except.ok res) :
    res.addons = Json.arr (firstAddons l) := by
  have hmk := resolve_obj_inv parse hdeps hres
  subst hmk
  have ha : (mkAvailability (Json.obj flds)
      (datesOf l, seatsOf l, tiersOf l, priceOf l)).addons =
      jsOrDefault (jsGetOpt (jsIndex0 (jsGetQ (Json.obj flds) "departures"))
        "addons") (Json.arr []) := rfl
  have h1 : jsGetQ (Json.obj flds) "departures" = some (Json.arr l) := by
    simp [jsGetQ, Json.getField, hdeps]
  rw [ha, h1]
  have h2 : jsIndex0 (some (Json.arr l)) = l.head? := rfl
  rw [h2]
  cases hh : l.head? with
  | none => simp [firstAddons, hh, jsGetOpt, jsOrDefault]
  | some d =>
    rw [hh] at haddons
    cases hv : jsGetOpt (some d) "addons" with
    | none =>
      have hv2 : jsGetQ d "addons" = none := hv
      simp [firstAddons, hh, hv, hv2, jsOrDefault]
    | some v =>
      rw [hv] at haddons
      cases v <;> simp [arrOrAbsentB] at haddons
      case arr xs =>
        have hv2 : jsGetQ d "addons" = some (Json.arr xs) := hv
        simp [firstAddons, hh, jsOrDefault, hv, hv2, Json.truthy]

/-- C9 witness departures: the first departure is sold out and carries the
addon list that the result must adopt; the open (anchor) departure's addons
must be ignored. -/
def c9wdeps : List Json :=
  [Json.obj [("date", Json.str "2025-10-01"), ("status", Json.str "sold_out"),
             ("addons", Json.arr [Json.str "Lunch"])],
   Json.obj [("date", Json.str "2025-10-08"), ("status", Json.str "open"),
             ("addons", Json.arr [Json.str "Spa"])]]

/-- C9 witness schedule fields. -/
def c9wflds : List (String × Json) := [("departures", Json.arr c9wdeps)]

/-- C9 witness result record. -/
def c9wres : TourAvailability :=
  (resolveSchedule (fun _ => none) (some (Json.obj c9wflds))).toOption.getD defaultAvailability

/-- C9 witness: the theorem applied where the index-0 departure is sold out;
the resolved addons are its `["Lunch"]`, not the anchor's. -/
theorem c9_witness :
    assocGet c9wflds "departures" = some (Json.arr c9wdeps) ∧
    arrOrAbsentB (jsGetOpt c9wdeps.head? "addons") = true ∧
    resolveSchedule (fun _ => none) (some (Json.obj c9wflds)) = Except.ok c9wres ∧
    availPred (Json.obj [("date", Json.str "2025-10-01"),
      ("status", Json.str "sold_out"), ("addons", Json.arr [Json.str "Lunch"])]) = false ∧
    firstAddons c9wdeps = [Json.str "Lunch"] ∧
    c9wres.addons = Json.arr (firstAddons c9wdeps) :=
  ⟨rfl, rfl, rfl, rfl, rfl,
    c9_addons_from_first (fun _ => none) c9wflds c9wdeps c9wres rfl rfl rfl⟩

/-- C10: a raw schedule field value that is truthy but neither a string nor a
`typeof`-object (a non-zero number or `true`) resolves, without error, to the
canonical defaults — the same result as an absent field. -/
theorem c10_truthy_primitive_default (parse : String → Option Json) (j : Json)
    (htr : j.truthy = true) (hnb : j.isNumOrBool = true) :
    resolveSchedule parse (some j) = Except.ok defaultAvailability ∧
    resolveSchedule parse (some j) = resolveSchedule parse none := by
  have hds : computeDS parse (some j) = Json.null := by
    cases j <;> simp [Json.isNumOrBool] at hnb <;>
      simp [computeDS, Json.truthy, Json.typeofObject, htr]
  constructor
  · rw [resolveSchedule, hds]; rfl
  · rw [resolveSchedule, resolveSchedule, hds]; rfl

/-- C10 witness: the theorem applied at the numeric field value 5. -/
theorem c10_witness :
    (Json.num 5).truthy = true ∧ (Json.num 5).isNumOrBool = true ∧
    (resolveSchedule (fun _ => none) (some (Json.num 5)) =
        Except.ok defaultAvailability ∧
      resolveSchedule (fun _ => none) (some (Json.num 5)) =
        resolveSchedule (fun _ => none) none) :=
  ⟨rfl, rfl, c10_truthy_primitive_default (fun _ => none) (Json.num 5) rfl rfl⟩
